import Mathlib

/-!
Shallow embedding of `src/main.py` ("Secure Voice Intelligence System"):
four CSV-backed tables (users, voices, records, reminders), bearer-token
authentication, a registration flow, a login flow, and the upload pipeline.

External capabilities (Gemini transcription / summarization / reminder
extraction, the speechbrain voice-embedding model, bcrypt hashing, SMTP)
are modelled as function parameters: the core logic of `main.py` is
translated directly, with each endpoint a pure function from the store
(the on-disk CSV contents) and its inputs to the new store plus either a
response or the raised `HTTPException`.

Python string operations used by the source are modelled on `List Char`
(a Python `str` is a sequence of code points):
- `p[:72]` is `pyTake p 72`;
- `filename.endswith(".wav")` is `endsWithWav filename`;
- `filename.lower().split(".")[-1]` is `extOf filename` (the suffix after
  the last dot of the ASCII-lowercased name, or the whole lowercased name
  when it has no dot — `str.split` always yields at least one segment);
- `datetime.strptime(s, "%Y-%m-%d %H:%M")` is `strptimeYmdHM s`, following
  CPython's `_strptime` regex fields (`%Y` exactly four digits, `%m`
  `1[0-2]|0[1-9]|[1-9]`, `%d` `3[01]|[12]\d|0[1-9]|[1-9]`, a whitespace run
  for the literal space, `%H` `2[0-3]|[0-1]\d|\d`, `%M` `[0-5]\d|\d`, the
  whole string consumed) plus the `datetime` constructor's day-of-month
  and year-range validation.
-/

namespace VoiceApp

/-- The `HTTPException` status codes raised by the endpoints of `main.py`:
409 "User exists", 401 "Login required" / "Invalid credentials",
400 "Unsupported audio format". -/
inductive Err where
  | conflict
  | unauthenticated
  | unsupportedMedia
deriving DecidableEq, Repr

/-- A row of `users.csv`, columns `["id","name","email","password","token","created_at"]`. -/
structure UserRow where
  id : String
  name : String
  email : String
  password : String
  token : String
  created_at : String
deriving DecidableEq, Repr

/-- A row of `voices.csv`, columns `["user_id","embedding","created_at"]`.
The embedding cell holds the JSON of the embedding list, or `null` for an
absent embedding; we keep the serialized embedding opaque as a `String` and
model the `null` case as `none`. -/
structure VoiceRow where
  user_id : String
  embedding : Option String
  created_at : String
deriving DecidableEq, Repr

/-- A row of `records.csv`, columns
`["id","user","department","transcript","summary","timestamp"]`. -/
structure RecordRow where
  id : String
  user : String
  department : String
  transcript : String
  summary : String
  timestamp : String
deriving DecidableEq, Repr

/-- A row of `reminders.csv`, columns `["id","user","text","remind_at","created_at"]`. -/
structure ReminderRow where
  id : String
  user : String
  text : String
  remind_at : String
  created_at : String
deriving DecidableEq, Repr

/-- The whole persistent state: the contents of the four CSV files, in
insertion order. -/
structure Store where
  users : List UserRow
  voices : List VoiceRow
  records : List RecordRow
  reminders : List ReminderRow
deriving DecidableEq, Repr

/-- The dict returned by `extract_reminder`: `json.loads` of the model
output. Keys beyond `found` may be missing (`reminder.get` then yields
Python `None`, modelled as `none`). -/
structure ReminderResult where
  found : Bool
  remind_at : Option String
  message : Option String
deriving DecidableEq, Repr

/-- The external capabilities `main.py` configures at module load
(Gemini generative models and the speechbrain classifier), as pure
functions.  `extractRaw` is the whole `try` body of `extract_reminder`
(Gemini call plus `json.loads`): `none` models any exception inside it
(adapter error or malformed/unparseable response). -/
structure Adapters where
  transcribe : String → String → String
  summarize : String → String
  extractRaw : String → Option ReminderResult
  embed : String → String

/-- Python `p[:72]`-style slicing: the first `n` characters. -/
def pyTake (p : String) (n : Nat) : String :=
  String.mk (p.data.take n)

/-- `hash_password(p) = pwd_context.hash(p[:72])` — the bcrypt backend is
the `hashFn` parameter. -/
def hash_password (hashFn : String → String) (p : String) : String :=
  hashFn (pyTake p 72)

/-- `verify_password(p, h) = pwd_context.verify(p[:72], h)` — the bcrypt
backend is the `verifyFn` parameter. -/
def verify_password (verifyFn : String → String → Bool) (p h : String) : Bool :=
  verifyFn (pyTake p 72) h

/-- UTF-8 byte length of a string (what "72 bytes" means for bcrypt). -/
def utf8Len (s : String) : Nat :=
  s.data.foldl (fun n c => n + c.utf8Size) 0

/-- `verify_token`: scan `users.csv` for the first row whose `token` cell
equals the given token (Python `==` on `str`, exact and case-sensitive);
raise 401 when none matches. -/
def verify_token (token : String) (users : List UserRow) : Except Err UserRow :=
  match users.find? (fun u => u.token == token) with
  | none => .error .unauthenticated
  | some u => .ok u

/-- `filename.endswith(".wav")`: case-sensitive suffix test. -/
def endsWithWav (filename : String) : Bool :=
  List.isPrefixOf ".wav".data.reverse filename.data.reverse

/-- `filename.lower().split(".")[-1]`: ASCII-lowercase the name and keep
the segment after the last dot (the whole name when it has no dot). -/
def extOf (filename : String) : String :=
  String.mk ((((filename.data.map Char.toLower).reverse).takeWhile (fun c => c != '.')).reverse)

/-- The extension→MIME dict of `speech_to_text`, read with `.get` (so an
unknown extension yields `None`). -/
def mimeOf (ext : String) : Option String :=
  if ext = "wav" then some "audio/wav"
  else if ext = "mp3" then some "audio/mpeg"
  else if ext = "mp4" then some "audio/mp4"
  else if ext = "ogg" then some "audio/ogg"
  else none

/-- `speech_to_text`: resolve the MIME type from the filename extension,
raise 400 when it is not in the allow-list, otherwise call the Gemini
transcription adapter. -/
def speech_to_text (A : Adapters) (audio_bytes filename : String) : Except Err String :=
  match mimeOf (extOf filename) with
  | none => .error .unsupportedMedia
  | some mime => .ok (A.transcribe audio_bytes mime)

/-- `get_summary`: the Gemini summarization call. -/
def get_summary (A : Adapters) (text : String) : String :=
  A.summarize text

/-- `extract_reminder`: the `try` body (`extractRaw`) on success returns
the parsed dict; any exception is swallowed into `{found: False}`. -/
def extract_reminder (A : Adapters) (text : String) : ReminderResult :=
  (A.extractRaw text).getD { found := false, remind_at := none, message := none }

/-! ### `datetime.strptime(s, "%Y-%m-%d %H:%M")` -/

/-- Numeric value of an ASCII digit character. -/
def digitVal (c : Char) : Nat := c.toNat - 48

/-- The year, month, day, hour, minute of a parsed timestamp
(seconds and microseconds are zero in a `%Y-%m-%d %H:%M` parse). -/
structure DateTime5 where
  year : Nat
  month : Nat
  day : Nat
  hour : Nat
  minute : Nat
deriving DecidableEq, Repr

/-- `%M` at the end of the input: `[0-5]\d|\d`, with the whole remaining
input consumed (CPython raises `ValueError` on unconverted data). -/
def minutePart : List Char → Option Nat
  | [c] => if c.isDigit then some (digitVal c) else none
  | [c1, c2] =>
    if c1.isDigit && digitVal c1 ≤ 5 && c2.isDigit then
      some (digitVal c1 * 10 + digitVal c2)
    else none
  | _ => none

/-- The literal `:` of the format, then `%M`. -/
def colonMinute : List Char → Option Nat
  | ':' :: rest => minutePart rest
  | _ => none

/-- `%H`: `2[0-3]|[0-1]\d|\d`, then `:%M`; regex alternatives tried in
order with backtracking. -/
def hourPart (cs : List Char) : Option (Nat × Nat) :=
  (match cs with
   | c1 :: c2 :: rest =>
     if (c1 = '2' && c2.isDigit && digitVal c2 ≤ 3) ||
        ((c1 = '0' || c1 = '1') && c2.isDigit) then
       (colonMinute rest).map (fun m => (digitVal c1 * 10 + digitVal c2, m))
     else none
   | _ => none)
  <|>
  (match cs with
   | c1 :: rest =>
     if c1.isDigit then (colonMinute rest).map (fun m => (digitVal c1, m)) else none
   | _ => none)

/-- Drop a run of whitespace characters. -/
def dropWs : List Char → List Char
  | c :: rest => if c.isWhitespace then dropWs rest else c :: rest
  | [] => []

/-- The literal space of the format compiles to `\s+`: at least one
whitespace character, consumed greedily, then `%H:%M`. -/
def spacesThenHour : List Char → Option (Nat × Nat)
  | c :: rest => if c.isWhitespace then hourPart (dropWs rest) else none
  | [] => none

/-- `%d`: `3[01]|[12]\d|0[1-9]|[1-9]`, then `\s+%H:%M`. -/
def dayPart (cs : List Char) : Option (Nat × Nat × Nat) :=
  (match cs with
   | c1 :: c2 :: rest =>
     if (c1 = '3' && (c2 = '0' || c2 = '1')) ||
        ((c1 = '1' || c1 = '2') && c2.isDigit) ||
        (c1 = '0' && c2.isDigit && 1 ≤ digitVal c2) then
       (spacesThenHour rest).map (fun hm => (digitVal c1 * 10 + digitVal c2, hm))
     else none
   | _ => none)
  <|>
  (match cs with
   | c1 :: rest =>
     if c1.isDigit && 1 ≤ digitVal c1 then
       (spacesThenHour rest).map (fun hm => (digitVal c1, hm))
     else none
   | _ => none)

/-- The literal `-` of the format, then `%d ...`. -/
def dashDay : List Char → Option (Nat × Nat × Nat)
  | '-' :: rest => dayPart rest
  | _ => none

/-- `%m`: `1[0-2]|0[1-9]|[1-9]`, then `-%d ...`. -/
def monthPart (cs : List Char) : Option (Nat × Nat × Nat × Nat) :=
  (match cs with
   | c1 :: c2 :: rest =>
     if (c1 = '1' && c2.isDigit && digitVal c2 ≤ 2) ||
        (c1 = '0' && c2.isDigit && 1 ≤ digitVal c2) then
       (dashDay rest).map (fun d => (digitVal c1 * 10 + digitVal c2, d))
     else none
   | _ => none)
  <|>
  (match cs with
   | c1 :: rest =>
     if c1.isDigit && 1 ≤ digitVal c1 then
       (dashDay rest).map (fun d => (digitVal c1, d))
     else none
   | _ => none)

/-- Proleptic-Gregorian leap-year rule used by `datetime`. -/
def isLeapYear (y : Nat) : Bool :=
  y % 4 = 0 && (y % 100 ≠ 0 || y % 400 = 0)

/-- Days in a month, as validated by the `datetime` constructor. -/
def daysInMonth (y m : Nat) : Nat :=
  if m = 2 then (if isLeapYear y then 29 else 28)
  else if m = 4 || m = 6 || m = 9 || m = 11 then 30
  else 31

/-- `datetime.strptime(s, "%Y-%m-%d %H:%M")`: `%Y` is exactly four digits,
then the field regexes above, then the `datetime(...)` constructor checks
`MINYEAR <= year` and `day <= days_in_month`; any failure raises
(`ValueError`), modelled as `none`. -/
def strptimeYmdHM (s : String) : Option DateTime5 :=
  match s.data with
  | y1 :: y2 :: y3 :: y4 :: '-' :: rest =>
    if y1.isDigit && y2.isDigit && y3.isDigit && y4.isDigit then
      match monthPart rest with
      | some (m, d, h, mi) =>
        let y := digitVal y1 * 1000 + digitVal y2 * 100 + digitVal y3 * 10 + digitVal y4
        if 1 ≤ y && d ≤ daysInMonth y m then some ⟨y, m, d, h, mi⟩ else none
      | none => none
    else none
  | _ => none

/-- Strictly monotone encoding of the lexicographic order on
`(year, month, day, hour, minute)` for the field ranges produced by
`strptimeYmdHM`. -/
def minuteKey (d : DateTime5) : Nat :=
  (((d.year * 13 + d.month) * 32 + d.day) * 24 + d.hour) * 60 + d.minute

/-- Sub-minute resolution of the `now` instant: microseconds per minute.
A parsed `%Y-%m-%d %H:%M` value sits exactly at a minute boundary, while
`datetime.now()` also carries seconds and microseconds. -/
def microPerMinute : Nat := 60000000

/-- `is_future_time(remind_at)`: parse with `strptime` and compare
strictly against `datetime.now()`; any exception (including `remind_at`
being `None`, a `TypeError`) yields `False`.  `now` is the current instant
encoded as `minuteKey`-scale microseconds. -/
def is_future_time (now : Nat) (remind_at : Option String) : Bool :=
  match remind_at with
  | none => false
  | some s =>
    match strptimeYmdHM s with
    | some d => decide (now < minuteKey d * microPerMinute)
    | none => false

/-- Python `cell == v` where `v` came from `dict.get` and may be `None`:
a CSV cell (always a `str`) is never equal to `None`. -/
def pyEqOpt (cell : String) (v : Option String) : Bool :=
  match v with
  | some s => cell == s
  | none => false

/-- `is_duplicate_reminder(user, text, time)`: does any existing reminder
row match the triple (with Python `==`, where a `None` message or time
never equals a stored cell)? -/
def is_duplicate_reminder (user : String) (text time : Option String)
    (reminders : List ReminderRow) : Bool :=
  reminders.any (fun r => r.user == user && pyEqOpt r.text text && pyEqOpt r.remind_at time)

/-- Python `csv.writer` renders `None` as an empty cell. -/
def csvCell (v : Option String) : String :=
  v.getD ""

/-! ### Endpoints -/

/-- `POST /auth/register`: reject a duplicate email with 409, else append
the User row (empty token) and then exactly one Voiceprint row, whose
embedding is computed only when the filename ends with the exact suffix
`".wav"`.  `uid` is the generated `uuid4` hex, `now1`/`now2` the two
`datetime.now().isoformat()` calls, `hashFn` the bcrypt backend and
`embedFn` the speechbrain embedding pipeline. -/
def register (s : Store) (name email password uid : String)
    (hashFn : String → String) (embedFn : String → String)
    (audio filename : String) (now1 now2 : String) : Store × Except Err Unit :=
  if s.users.any (fun u => u.email == email) then
    (s, .error .conflict)
  else
    let users' := s.users ++ [{ id := uid, name := name, email := email,
                                password := hash_password hashFn password,
                                token := "", created_at := now1 }]
    let emb : Option String := if endsWithWav filename then some (embedFn audio) else none
    ({ s with users := users',
              voices := s.voices ++ [{ user_id := uid, embedding := emb, created_at := now2 }] },
     .ok ())

/-- The `for u in users: if u["email"] == email: u["token"] = token` loop
followed by the full rewrite of `users.csv`: every row keeps its position
and all fields except that rows with the given email get the new token. -/
def setTokenByEmail (users : List UserRow) (email tok : String) : List UserRow :=
  users.map (fun u => if u.email = email then { u with token := tok } else u)

/-- `POST /auth/login`: find the first row with the given email, check the
password (401 on either failure), then rewrite `users.csv` with the fresh
token on every row carrying that email and return the token.  `newToken`
is the generated `uuid4` hex and `verifyFn` the bcrypt backend; the
outgoing token email is an external side effect with no store footprint. -/
def login (s : Store) (email password : String)
    (verifyFn : String → String → Bool) (newToken : String) : Store × Except Err String :=
  match s.users.find? (fun u => u.email == email) with
  | none => (s, .error .unauthenticated)
  | some u =>
    if verify_password verifyFn password u.password then
      ({ s with users := setTokenByEmail s.users email newToken }, .ok newToken)
    else
      (s, .error .unauthenticated)

/-- The response dict of `POST /business/upload`. -/
structure UploadResponse where
  status : String
  transcript : String
  summary : String
  reminder : ReminderResult
deriving DecidableEq, Repr

/-- `POST /business/upload`: validate the token, transcribe (400 on an
unknown extension), summarize, run reminder extraction, append one Record
row, and append a Reminder row only when the extraction found one, its
time parses strictly into the future, and the (user, message, time) triple
is not already stored.  `recId`/`remId` are the generated `uuid4` hexes,
`now` the instant `is_future_time` compares against, `nowIso1`/`nowIso2`
the two `datetime.now().isoformat()` calls. -/
def business_upload (A : Adapters) (s : Store) (token department : String)
    (audio filename : String) (recId remId : String)
    (now : Nat) (nowIso1 nowIso2 : String) : Store × Except Err UploadResponse :=
  match verify_token token s.users with
  | .error e => (s, .error e)
  | .ok user =>
    match speech_to_text A audio filename with
    | .error e => (s, .error e)
    | .ok transcript =>
      let summary := get_summary A transcript
      let reminder := extract_reminder A transcript
      let s1 := { s with records := s.records ++
        [{ id := recId, user := user.email, department := department,
           transcript := transcript, summary := summary, timestamp := nowIso1 }] }
      let s2 :=
        if reminder.found then
          if is_future_time now reminder.remind_at &&
             !(is_duplicate_reminder user.email reminder.message reminder.remind_at s1.reminders) then
            { s1 with reminders := s1.reminders ++
              [{ id := remId, user := user.email, text := csvCell reminder.message,
                 remind_at := csvCell reminder.remind_at, created_at := nowIso2 }] }
          else s1
        else s1
      (s2, .ok { status := "processed", transcript := transcript,
                 summary := summary, reminder := reminder })

/-- No two distinct user rows share an email. -/
def emailsNodup (users : List UserRow) : Prop :=
  (users.map UserRow.email).Nodup

/-! ### Helper lemmas -/

theorem setTokenByEmail_map_email (users : List UserRow) (email tok : String) :
    (setTokenByEmail users email tok).map UserRow.email = users.map UserRow.email := by
  induction users with
  | nil => rfl
  | cons a l ih =>
    simp only [setTokenByEmail, List.map_cons] at ih ⊢
    by_cases ha : a.email = email <;> simp [ha, ih]

theorem setTokenByEmail_length (users : List UserRow) (email tok : String) :
    (setTokenByEmail users email tok).length = users.length := by
  simp [setTokenByEmail]

theorem setTokenByEmail_setTokenByEmail (users : List UserRow) (email t1 t2 : String) :
    setTokenByEmail (setTokenByEmail users email t1) email t2 =
      setTokenByEmail users email t2 := by
  induction users with
  | nil => rfl
  | cons a l ih =>
    simp only [setTokenByEmail, List.map_cons] at ih ⊢
    by_cases ha : a.email = email <;> simp [ha, ih]

theorem setTokenByEmail_cons (a : UserRow) (l : List UserRow) (email tok : String) :
    setTokenByEmail (a :: l) email tok =
      (if a.email = email then { a with token := tok } else a) :: setTokenByEmail l email tok :=
  rfl

theorem find?_email_setTokenByEmail (users : List UserRow) (email tok : String) (u : UserRow)
    (h : users.find? (fun v => v.email == email) = some u) :
    (setTokenByEmail users email tok).find? (fun v => v.email == email) =
      some { u with token := tok } := by
  induction users with
  | nil => simp [List.find?] at h
  | cons a l ih =>
    rw [setTokenByEmail_cons]
    by_cases ha : a.email = email
    · rw [List.find?_cons_of_pos _ (by simpa using ha)] at h
      obtain rfl : a = u := by injection h
      rw [if_pos ha, List.find?_cons_of_pos _ (by simpa using ha)]
    · rw [List.find?_cons_of_neg _ (by simpa using ha)] at h
      rw [if_neg ha, List.find?_cons_of_neg _ (by simpa using ha)]
      exact ih h

theorem find?_token_setTokenByEmail (users : List UserRow) (email tok : String) (u : UserRow)
    (hfind : users.find? (fun v => v.email == email) = some u)
    (hfresh : ∀ v ∈ users, v.email ≠ email → v.token ≠ tok) :
    (setTokenByEmail users email tok).find? (fun v => v.token == tok) =
      some { u with token := tok } := by
  induction users with
  | nil => simp [List.find?] at hfind
  | cons a l ih =>
    rw [setTokenByEmail_cons]
    by_cases ha : a.email = email
    · rw [List.find?_cons_of_pos _ (by simpa using ha)] at hfind
      obtain rfl : a = u := by injection hfind
      rw [if_pos ha, List.find?_cons_of_pos]
      simp
    · have htk : a.token ≠ tok := hfresh a (List.mem_cons_self a l) ha
      rw [List.find?_cons_of_neg _ (by simpa using ha)] at hfind
      rw [if_neg ha, List.find?_cons_of_neg _ (by simpa using htk)]
      exact ih hfind (fun v hv => hfresh v (List.mem_cons_of_mem a hv))

theorem verify_token_eq_error_iff (token : String) (users : List UserRow) :
    verify_token token users = .error .unauthenticated ↔ ∀ u ∈ users, u.token ≠ token := by
  rw [verify_token]
  constructor
  · intro h u hu htok
    cases hf : users.find? (fun v => v.token == token) with
    | none =>
      have := List.find?_eq_none.mp hf u hu
      simp [htok] at this
    | some v => simp [hf] at h
  · intro h
    have : users.find? (fun v => v.token == token) = none :=
      List.find?_eq_none.mpr (fun u hu => by simpa using h u hu)
    simp [this]

theorem verify_token_eq_ok (token : String) (users : List UserRow) (u : UserRow)
    (h : verify_token token users = .ok u) : u ∈ users ∧ u.token = token := by
  rw [verify_token] at h
  cases hf : users.find? (fun v => v.token == token) with
  | none => simp [hf] at h
  | some v =>
    simp only [hf, Except.ok.injEq] at h
    subst h
    exact ⟨List.mem_of_find?_eq_some hf, by simpa using List.find?_some hf⟩

theorem mimeOf_eq_none_of_not_allowed {e : String}
    (h : e ∉ (["wav", "mp3", "mp4", "ogg"] : List String)) : mimeOf e = none := by
  simp only [List.mem_cons, List.not_mem_nil, or_false, not_or] at h
  obtain ⟨h1, h2, h3, h4⟩ := h
  simp [mimeOf, h1, h2, h3, h4]

/-! ### Concrete fixtures used by the witnesses -/

/-- A user row as written by a registration followed by a login that
issued token `tok1`. -/
def aliceRow : UserRow :=
  { id := "u1", name := "Alice", email := "alice@example.com",
    password := "HASH-A", token := "tok1", created_at := "t0" }

/-- A second user row, with a different email and token. -/
def bobRow : UserRow :=
  { id := "u2", name := "Bob", email := "bob@example.com",
    password := "HASH-B", token := "tokB", created_at := "t0" }

/-- A concrete store with two users and empty other tables. -/
def demoStore : Store := ⟨[aliceRow, bobRow], [], [], []⟩

/-- Concrete adapters whose extraction detects a future reminder. -/
def demoAdapters : Adapters :=
  ⟨fun _ _ => "call Bob tomorrow", fun _ => "short summary",
   fun _ => some ⟨true, some "2030-01-01 10:00", some "call Bob"⟩,
   fun _ => "emb"⟩

/-- Concrete adapters whose extraction stage fails (malformed output). -/
def failAdapters : Adapters :=
  ⟨fun _ _ => "t", fun _ => "s", fun _ => none, fun _ => "e"⟩

/-! ### Claims -/

/-- C1: in the upload pipeline, for an extraction result with
`found = true`, a Reminder row is appended (exactly one, at the end) if
and only if the `remind_at` string parses in `"%Y-%m-%d %H:%M"` format to
a time strictly after the current instant and no existing Reminder row has
the identical (user email, message, remind_at string) triple; when either
condition fails the reminders table is unchanged, and in every case the
request succeeds with no surfaced error. -/
theorem C1_reminder_gate (A : Adapters) (s : Store)
    (token department audio filename recId remId : String)
    (now : Nat) (nowIso1 nowIso2 : String) (u : UserRow) (mime transcript : String)
    (r : ReminderResult)
    (htok : verify_token token s.users = .ok u)
    (hmime : mimeOf (extOf filename) = some mime)
    (htr : A.transcribe audio mime = transcript)
    (hr : extract_reminder A transcript = r)
    (hfound : r.found = true) :
    (business_upload A s token department audio filename recId remId now nowIso1 nowIso2).2 =
      .ok { status := "processed", transcript := transcript,
            summary := get_summary A transcript, reminder := r } ∧
    ((is_future_time now r.remind_at &&
        !(is_duplicate_reminder u.email r.message r.remind_at s.reminders)) = true →
      (business_upload A s token department audio filename recId remId now nowIso1 nowIso2).1.reminders =
        s.reminders ++ [{ id := remId, user := u.email, text := csvCell r.message,
                          remind_at := csvCell r.remind_at, created_at := nowIso2 }]) ∧
    ((is_future_time now r.remind_at &&
        !(is_duplicate_reminder u.email r.message r.remind_at s.reminders)) = false →
      (business_upload A s token department audio filename recId remId now nowIso1 nowIso2).1.reminders =
        s.reminders) := by
  have hst : speech_to_text A audio filename = .ok transcript := by
    simp [speech_to_text, hmime, htr]
  refine ⟨?_, fun hc => ?_, fun hc => ?_⟩
  · simp [business_upload, htok, hst, hr, hfound, get_summary]
  · simp [business_upload, htok, hst, hr, hfound, hc]
  · simp [business_upload, htok, hst, hr, hfound, hc]

/-- C1 witness: with concrete adapters detecting a future, non-duplicate
reminder, exactly one Reminder row is appended. -/
theorem C1_reminder_gate_witness :
    (business_upload demoAdapters demoStore "tok1" "sales" "b" "a.wav" "r1" "m1"
        0 "n1" "n2").1.reminders =
      demoStore.reminders ++
        [{ id := "m1", user := "alice@example.com", text := "call Bob",
           remind_at := "2030-01-01 10:00", created_at := "n2" }] :=
  (C1_reminder_gate demoAdapters demoStore "tok1" "sales" "b" "a.wav" "r1" "m1"
      0 "n1" "n2" aliceRow "audio/wav" "call Bob tomorrow"
      ⟨true, some "2030-01-01 10:00", some "call Bob"⟩
      rfl rfl rfl rfl rfl).2.1 (by decide)

/-- C3 counterexample: the claim that validating the empty token never
succeeds is false — on a users table holding a freshly registered user
(whose stored token is the empty string), `verify_token ""` matches that
row and succeeds. -/
theorem C3_empty_token_counterexample :
    verify_token ""
        [{ id := "u1", name := "Alice", email := "alice@example.com",
           password := "HASH-A", token := "", created_at := "t0" }] =
      .ok { id := "u1", name := "Alice", email := "alice@example.com",
            password := "HASH-A", token := "", created_at := "t0" } := rfl

/-- C3 (amended): token validation scans the users table for a row whose
token field equals the given token by case-sensitive exact match and fails
with Unauthenticated exactly when no row matches; in particular the empty
token succeeds precisely when some row's stored token is the empty string
(there is no guard against empty tokens). -/
theorem C3_token_scan (token : String) (users : List UserRow) :
    (verify_token token users = .error .unauthenticated ↔ ∀ u ∈ users, u.token ≠ token) ∧
    (∀ u : UserRow, verify_token token users = .ok u → u ∈ users ∧ u.token = token) :=
  ⟨verify_token_eq_error_iff token users, fun u h => verify_token_eq_ok token users u h⟩

/-- C3 witness: a token stored by no row is rejected with Unauthenticated. -/
theorem C3_token_scan_witness :
    verify_token "zzz" [aliceRow, bobRow] = .error .unauthenticated :=
  (C3_token_scan "zzz" [aliceRow, bobRow]).1.mpr (by decide)

/-- C5: any failure of the reminder-extraction stage yields
`{found := false}`, and the upload still succeeds with exactly one Record
row appended, the reminders table untouched, and the response carrying
`reminder = {found := false}`. -/
theorem C5_extraction_failure_degrades (A : Adapters) (s : Store)
    (token department audio filename recId remId : String)
    (now : Nat) (nowIso1 nowIso2 : String) (u : UserRow) (mime transcript : String)
    (htok : verify_token token s.users = .ok u)
    (hmime : mimeOf (extOf filename) = some mime)
    (htr : A.transcribe audio mime = transcript)
    (hfail : A.extractRaw transcript = none) :
    extract_reminder A transcript = { found := false, remind_at := none, message := none } ∧
    business_upload A s token department audio filename recId remId now nowIso1 nowIso2 =
      ({ s with records := s.records ++
          [{ id := recId, user := u.email, department := department,
             transcript := transcript, summary := get_summary A transcript,
             timestamp := nowIso1 }] },
       .ok { status := "processed", transcript := transcript,
             summary := get_summary A transcript,
             reminder := { found := false, remind_at := none, message := none } }) := by
  have hst : speech_to_text A audio filename = .ok transcript := by
    simp [speech_to_text, hmime, htr]
  have hext : extract_reminder A transcript =
      { found := false, remind_at := none, message := none } := by
    rw [extract_reminder, hfail]
    rfl
  exact ⟨hext, by simp [business_upload, htok, hst, hext, get_summary]⟩

/-- C5 witness: a failing extraction adapter on a concrete store. -/
theorem C5_extraction_failure_degrades_witness :
    business_upload failAdapters demoStore "tok1" "sales" "b" "a.wav" "r1" "m1" 0 "n1" "n2" =
      ({ demoStore with
          records := [{ id := "r1", user := "alice@example.com", department := "sales",
                        transcript := "t", summary := "s", timestamp := "n1" }] },
       .ok { status := "processed", transcript := "t", summary := "s",
             reminder := { found := false, remind_at := none, message := none } }) :=
  (C5_extraction_failure_degrades failAdapters demoStore "tok1" "sales" "b" "a.wav"
      "r1" "m1" 0 "n1" "n2" aliceRow "audio/wav" "t" rfl rfl rfl rfl).2

/-- C6: an authenticated upload whose filename extension (the part after
the last dot, lowercased) is not in the allow-list {wav, mp3, mp4, ogg}
fails with UnsupportedMedia, leaves the store unchanged, and its outcome
does not depend on any adapter (none is invoked). -/
theorem C6_unsupported_media_rejected (A A2 : Adapters) (s : Store)
    (token department audio filename recId remId : String)
    (now : Nat) (nowIso1 nowIso2 : String) (u : UserRow)
    (htok : verify_token token s.users = .ok u)
    (hext : extOf filename ∉ (["wav", "mp3", "mp4", "ogg"] : List String)) :
    business_upload A s token department audio filename recId remId now nowIso1 nowIso2 =
      (s, .error .unsupportedMedia) ∧
    business_upload A s token department audio filename recId remId now nowIso1 nowIso2 =
      business_upload A2 s token department audio filename recId remId now nowIso1 nowIso2 := by
  have hmime : mimeOf (extOf filename) = none := mimeOf_eq_none_of_not_allowed hext
  have hall : ∀ B : Adapters,
      business_upload B s token department audio filename recId remId now nowIso1 nowIso2 =
        (s, .error .unsupportedMedia) := by
    intro B
    simp [business_upload, htok, speech_to_text, hmime]
  exact ⟨hall A, (hall A).trans (hall A2).symm⟩

/-- C6 witness: the spec's own example, filename `clip.xyz`. -/
theorem C6_unsupported_media_rejected_witness :
    business_upload demoAdapters demoStore "tok1" "sales" "b" "clip.xyz" "r1" "m1"
        0 "n1" "n2" = (demoStore, .error .unsupportedMedia) :=
  (C6_unsupported_media_rejected demoAdapters failAdapters demoStore "tok1" "sales"
      "b" "clip.xyz" "r1" "m1" 0 "n1" "n2" aliceRow rfl (by decide)).1

/-- C7 counterexample: the claim that the value passed to the hash
function is the first 72 *bytes* of the password is false — `p[:72]`
slices characters, and for a password of 73 two-byte characters the value
passed to the hash function occupies 144 UTF-8 bytes. -/
theorem C7_byte_truncation_counterexample :
    hash_password id (String.mk (List.replicate 73 '¢')) =
      String.mk (List.replicate 72 '¢') ∧
    utf8Len (String.mk (List.replicate 72 '¢')) = 144 ∧ ¬(144 ≤ 72) :=
  ⟨by decide, by decide, by decide⟩

/-- C7 (amended): registration's password hashing truncates the supplied
password to its first 72 *characters* (code points) before hashing —
`hash_password` passes exactly `p[:72]` to the hash function; this equals
72 bytes only when those characters are single-byte. -/
theorem C7_char_truncation (hashFn : String → String) (p : String) :
    hash_password hashFn p = hashFn (pyTake p 72) ∧ (pyTake p 72).length ≤ 72 := by
  refine ⟨rfl, ?_⟩
  show (String.mk (p.data.take 72)).length ≤ 72
  exact List.length_take_le 72 p.data

/-- C9: password checking depends only on the first 72 characters of the
supplied password — `verify_password p h = verify_password p[:72] h`, and
any two passwords agreeing on their first 72 characters verify identically
against every hash. -/
theorem C9_verify_password_first72 (verifyFn : String → String → Bool) (p h : String) :
    verify_password verifyFn p h = verify_password verifyFn (pyTake p 72) h ∧
    (∀ p1 p2 h2 : String, pyTake p1 72 = pyTake p2 72 →
      verify_password verifyFn p1 h2 = verify_password verifyFn p2 h2) := by
  have idem : ∀ q : String, pyTake (pyTake q 72) 72 = pyTake q 72 := by
    intro q
    show String.mk ((String.mk (q.data.take 72)).data.take 72) = String.mk (q.data.take 72)
    simp [List.take_take]
  constructor
  · show verifyFn (pyTake p 72) h = verifyFn (pyTake (pyTake p 72) 72) h
    rw [idem]
  · intro p1 p2 h2 he
    show verifyFn (pyTake p1 72) h2 = verifyFn (pyTake p2 72) h2
    rw [he]

/-- C2: after two sequential successful logins by the same user (with the
freshly generated tokens distinct and colliding with no other row's
token), validating the first-issued token fails with Unauthenticated while
the second-issued token succeeds and returns that user's row (with its
token field holding the latest token) — latest issued token wins, at most
one active token per user. -/
theorem C2_token_freshness (s : Store) (email password t1 t2 : String)
    (verifyFn : String → String → Bool) (u : UserRow)
    (hfind : s.users.find? (fun v => v.email == email) = some u)
    (hpw : verifyFn (pyTake password 72) u.password = true)
    (hne : t1 ≠ t2)
    (hfresh : ∀ v ∈ s.users, v.email ≠ email → v.token ≠ t1 ∧ v.token ≠ t2) :
    login s email password verifyFn t1 =
      ({ s with users := setTokenByEmail s.users email t1 }, .ok t1) ∧
    login { s with users := setTokenByEmail s.users email t1 } email password verifyFn t2 =
      ({ s with users := setTokenByEmail s.users email t2 }, .ok t2) ∧
    verify_token t1 (setTokenByEmail s.users email t2) = .error .unauthenticated ∧
    verify_token t2 (setTokenByEmail s.users email t2) = .ok { u with token := t2 } := by
  refine ⟨?_, ?_, ?_, ?_⟩
  · simp [login, hfind, verify_password, hpw]
  · have hfind1 : (setTokenByEmail s.users email t1).find? (fun v => v.email == email) =
        some { u with token := t1 } :=
      find?_email_setTokenByEmail s.users email t1 u hfind
    simp [login, hfind1, verify_password, hpw, setTokenByEmail_setTokenByEmail]
  · refine (verify_token_eq_error_iff t1 (setTokenByEmail s.users email t2)).mpr ?_
    intro v hv
    obtain ⟨w, hw, rfl⟩ := List.mem_map.mp hv
    by_cases hwe : w.email = email
    · simp only [if_pos hwe]
      exact fun h => hne (h.symm)
    · simp only [if_neg hwe]
      exact (hfresh w hw hwe).1
  · have := find?_token_setTokenByEmail s.users email t2 u hfind
      (fun v hv hve => (hfresh v hv hve).2)
    rw [verify_token, this]

/-- C2 witness: two concrete logins by Alice; the first token no longer
validates, the second returns Alice's updated row. -/
theorem C2_token_freshness_witness :
    verify_token "T1" (setTokenByEmail demoStore.users "alice@example.com" "T2") =
      .error .unauthenticated ∧
    verify_token "T2" (setTokenByEmail demoStore.users "alice@example.com" "T2") =
      .ok { aliceRow with token := "T2" } :=
  ⟨(C2_token_freshness demoStore "alice@example.com" "pw" "T1" "T2"
      (fun _ _ => true) aliceRow rfl rfl (by decide) (by decide)).2.2.1,
   (C2_token_freshness demoStore "alice@example.com" "pw" "T1" "T2"
      (fun _ _ => true) aliceRow rfl rfl (by decide) (by decide)).2.2.2⟩

/-- C4: email uniqueness — a registration whose email already exists
fails with Conflict and changes nothing; registration preserves the
no-two-rows-share-an-email invariant; login preserves the list of emails
(and hence the invariant). -/
theorem C4_email_uniqueness (s : Store) (name email password uid : String)
    (hashFn embedFn : String → String) (audio filename now1 now2 : String)
    (lemail lpass newTok : String) (verifyFn : String → String → Bool) :
    ((∃ u ∈ s.users, u.email = email) →
      register s name email password uid hashFn embedFn audio filename now1 now2 =
        (s, .error .conflict)) ∧
    (emailsNodup s.users →
      emailsNodup (register s name email password uid hashFn embedFn audio filename
        now1 now2).1.users) ∧
    ((login s lemail lpass verifyFn newTok).1.users.map UserRow.email =
      s.users.map UserRow.email) ∧
    (emailsNodup s.users → emailsNodup (login s lemail lpass verifyFn newTok).1.users) := by
  have hp3 : (login s lemail lpass verifyFn newTok).1.users.map UserRow.email =
      s.users.map UserRow.email := by
    cases hf : s.users.find? (fun v => v.email == lemail) with
    | none => simp [login, hf]
    | some w =>
      cases hpw : verify_password verifyFn lpass w.password with
      | false => simp [login, hf, hpw]
      | true => simp [login, hf, hpw, setTokenByEmail_map_email]
  refine ⟨?_, ?_, hp3, ?_⟩
  · rintro ⟨v, hv, hve⟩
    have hany : s.users.any (fun w => w.email == email) = true :=
      List.any_eq_true.mpr ⟨v, hv, by simp [hve]⟩
    simp [register, hany]
  · intro h
    cases hany : s.users.any (fun w => w.email == email) with
    | true => simpa [register, hany] using h
    | false =>
      have hnotin : email ∉ s.users.map UserRow.email := by
        intro hmem
        obtain ⟨w, hw, hwe⟩ := List.mem_map.mp hmem
        have := List.any_eq_false.mp hany w hw
        simp [hwe] at this
      simp only [register, hany]
      rw [if_neg Bool.false_ne_true]
      dsimp only
      rw [emailsNodup, List.map_append]
      refine List.Nodup.append h (List.nodup_singleton _) ?_
      intro x hx hx2
      simp only [List.map_cons, List.map_nil, List.mem_singleton] at hx2
      subst hx2
      exact hnotin hx
  · intro h
    rw [emailsNodup, hp3]
    exact h

/-- C4 witness: re-registering Alice's email fails with Conflict and
leaves the store unchanged; a login keeps the emails duplicate-free. -/
theorem C4_email_uniqueness_witness :
    register demoStore "Eve" "alice@example.com" "pw" "u9" id id "b" "v.wav" "n1" "n2" =
      (demoStore, .error .conflict) ∧
    emailsNodup (login demoStore "alice@example.com" "pw"
      (fun _ _ => true) "T").1.users :=
  ⟨(C4_email_uniqueness demoStore "Eve" "alice@example.com" "pw" "u9" id id "b" "v.wav"
      "n1" "n2" "alice@example.com" "pw" "T" (fun _ _ => true)).1
      ⟨aliceRow, by decide, rfl⟩,
   (C4_email_uniqueness demoStore "Eve" "alice@example.com" "pw" "u9" id id "b" "v.wav"
      "n1" "n2" "alice@example.com" "pw" "T" (fun _ _ => true)).2.2.2
      (show (List.map UserRow.email demoStore.users).Nodup by decide)⟩

/-- C8: a successful login rewrites the users table to one of the same
length where the row at every position either keeps all its fields (email
differing from the login email) or keeps all fields except `token`, which
becomes the newly issued token (email equal); the other tables are
untouched. -/
theorem C8_login_frame (s : Store) (email password newTok : String)
    (verifyFn : String → String → Bool) (s' : Store)
    (_hnodup : emailsNodup s.users)
    (hlogin : login s email password verifyFn newTok = (s', .ok newTok)) :
    s'.users.length = s.users.length ∧
    (∀ (i : Nat) (v : UserRow), s.users[i]? = some v →
      s'.users[i]? = some (if v.email = email then { v with token := newTok } else v)) ∧
    s'.voices = s.voices ∧ s'.records = s.records ∧ s'.reminders = s.reminders := by
  cases hf : s.users.find? (fun v => v.email == email) with
  | none => simp [login, hf] at hlogin
  | some w =>
    cases hpw : verify_password verifyFn password w.password with
    | false => simp [login, hf, hpw] at hlogin
    | true =>
      rw [login, hf] at hlogin
      simp only [hpw, if_pos rfl] at hlogin
      have hs : ({ s with users := setTokenByEmail s.users email newTok } : Store) = s' := by
        have := congrArg Prod.fst hlogin
        simpa using this
      subst hs
      refine ⟨setTokenByEmail_length s.users email newTok, ?_, rfl, rfl, rfl⟩
      intro i v hv
      simp [setTokenByEmail, List.getElem?_map, hv]

/-- C8 witness: a concrete login on the two-user store. -/
theorem C8_login_frame_witness :
    (login demoStore "alice@example.com" "pw" (fun _ _ => true) "T").1.users.length =
      demoStore.users.length :=
  (C8_login_frame demoStore "alice@example.com" "pw" "T" (fun _ _ => true)
      (login demoStore "alice@example.com" "pw" (fun _ _ => true) "T").1
      (show (List.map UserRow.email demoStore.users).Nodup by decide) rfl).1

/-- C10: at registration the embedding is computed exactly when the
filename ends with the case-sensitive suffix `".wav"`, one Voiceprint row
is appended either way; `"voice.WAV"` gets an absent embedding while the
upload pipeline's extension check (which lowercases the filename) would
accept that same name. -/
theorem C10_voiceprint_wav_gate (s : Store) (name email password uid : String)
    (hashFn embedFn : String → String) (audio filename now1 now2 : String)
    (hfresh : ∀ u ∈ s.users, u.email ≠ email) :
    (register s name email password uid hashFn embedFn audio filename now1 now2).1.voices =
      s.voices ++ [{ user_id := uid,
                     embedding := if endsWithWav filename then some (embedFn audio) else none,
                     created_at := now2 }] ∧
    endsWithWav "voice.WAV" = false ∧
    mimeOf (extOf "voice.WAV") = some "audio/wav" := by
  have hany : s.users.any (fun w => w.email == email) = false :=
    List.any_eq_false.mpr (fun w hw => by simp [hfresh w hw])
  exact ⟨by simp [register, hany], by decide, by decide⟩

/-- C10 witness: registering with `voice.WAV` stores an absent embedding. -/
theorem C10_voiceprint_wav_gate_witness :
    (register demoStore "Carol" "carol@example.com" "pw" "u3" id id "b" "voice.WAV"
        "n1" "n2").1.voices =
      demoStore.voices ++ [{ user_id := "u3", embedding := none, created_at := "n2" }] :=
  (C10_voiceprint_wav_gate demoStore "Carol" "carol@example.com" "pw" "u3" id id "b"
      "voice.WAV" "n1" "n2" (by decide)).1

/-- C9 witness: two passwords that differ only past character 72 verify
identically. -/
theorem C9_verify_password_first72_witness :
    verify_password (fun a b => a == b) (String.mk (List.replicate 73 'a')) "h" =
      verify_password (fun a b => a == b) (String.mk (List.replicate 72 'a' ++ ['b'])) "h" :=
  (C9_verify_password_first72 (fun a b => a == b) "x" "y").2
    (String.mk (List.replicate 73 'a')) (String.mk (List.replicate 72 'a' ++ ['b'])) "h"
    (by decide)

end VoiceApp
